import Mathlib

/-!
Verification development for `python_code/detectors/deepsic/deep_sic_trainer.py`
(repository `modular-concept-drift-for-receivers`).

The file shallowly embeds the `DeepSICTrainer` class.  Tensors become rational
matrices with an explicit shape (`QMat`); the mutable instance attributes of the
trainer become the fields of `TrainerState`, and every method that writes to
`self` is embedded as a state transformer returning the new state.  Collaborators
that live outside the embedded file (the `DeepSICDetector` network, the torch
optimizer loop of `train_model`, the softmax of the `Trainer` base class, the
BPSK modulator, the Hotelling test routine, the configuration singleton) are
modelled from the specification as abstract parameters or small definitions,
each marked `Modelled from the spec:` in its doc comment.
-/

namespace DeepSIC

/-- `ITERATIONS = 3` in the source: the number of soft interference cancellation
iterations. -/
def ITERATIONS : ℕ := 3

/-- `EPOCHS = 250` in the source: gradient-descent epochs per classifier fit. -/
def EPOCHS : ℕ := 250

/-- Modelled from the spec: the constant `HALF` imported from
`python_code.utils.constants` (not under `src/`); the 0.5 used both as the
uniform prior and as the hard-detection threshold. -/
def HALF : ℚ := 1/2

/-- Modelled from the spec: the `TRAINING_TYPES` enumeration from
`python_code.drift_mechanisms.drift_mechanism_wrapper` (not under `src/`).
`DRIFT` is the drift-adaptive operating mode; the remaining members stand for
the other operating modes, in which the classifier grid persists. -/
inductive TRAINING_TYPES
  | ALWAYS
  | PERIODIC
  | DRIFT
deriving DecidableEq

/-- Modelled from the spec: the configuration scalars supplied by the `Config`
singleton and `channels_hyperparams` (neither under `src/`): block length,
pilot-block length, number of users (`N_USER`), number of antennas (`N_ANT`),
and the operating-mode flag `mechanism`. -/
structure Config where
  n_user : ℕ
  n_ant : ℕ
  block_length : ℕ
  pilot_size : ℕ
  mechanism : TRAINING_TYPES

/-- A rational matrix with an explicit shape, embedding a torch tensor.  Entries
outside the `rows × cols` range are irrelevant junk. -/
structure QMat where
  rows : ℕ
  cols : ℕ
  entry : ℕ → ℕ → ℚ

/-- Elementwise map over a matrix (torch broadcasting of a scalar function). -/
def matMap (f : ℚ → ℚ) (m : QMat) : QMat :=
  ⟨m.rows, m.cols, fun r c => f (m.entry r c)⟩

/-- One entry of `self.ht`.  In the source the list starts as the python
scalars `[0] * N_USER` and is later overwritten with the per-user numpy sample
rows `ht_mat[user][ITERATIONS - 1]`, so an entry is either a scalar or a list
of statistics. -/
inductive HtEntry
  | scalar (q : ℚ)
  | samples (l : List ℚ)
deriving DecidableEq

/-- The mutable attributes of a `DeepSICTrainer` instance.  `Θ` is the abstract
parameter space of one `DeepSICDetector` classifier; `detector u i` is the cell
`(user, iteration)` of the classifier grid.  `train_users_list` is the per-user
training-enable flag set by the drift mechanism (`Trainer` base class, not
under `src/`). -/
structure TrainerState (Θ : Type) where
  detector : ℕ → ℕ → Θ
  ht : ℕ → HtEntry
  prev_ht_s0 : ℕ → ℕ → List ℚ
  prev_ht_s1 : ℕ → ℕ → List ℚ
  probs_vec : QMat
  pilots_probs_vec : QMat
  train_users_list : ℕ → Bool

/-- Modelled from the spec: the black-box forward pass of one `DeepSICDetector`
(`deep_sic_detector.py`, not under `src/`): from its parameters and the
augmented input row it produces the two class scores. -/
abbrev ClassifierFw (Θ : Type) := Θ → List ℚ → ℚ × ℚ

/-- Modelled from the spec: the exponential map inside the softmax
(`self.softmax`, set in the `Trainer` base class, not under `src/`).  The real
exponential is abstracted as a map `ℚ → ℚ`; theorems that need its positivity
assume it. -/
abbrev ExpMap := ℚ → ℚ

/-- Modelled from the spec: the statistic computed by `run_hotelling_test`
(`hotelling_test_utils.py`, not under `src/`), as a function of the current
class-0 samples, current class-1 samples, historical class-0 samples and
historical class-1 samples for one `(user, iteration)` cell. -/
abbrev DriftStat := List ℚ → List ℚ → List ℚ → List ℚ → ℚ

/-- Modelled from the spec: `train_model` — 250 Adam epochs (learning rate 1e-3)
of cross-entropy fitting of one classifier; the torch optimizer is external, so
the whole fit is abstracted as a function from the current parameters and the
training data to the new parameters. -/
abbrev TrainFn (Θ : Type) := Θ → List ℚ → QMat → Θ

/-- Modelled from the spec: two-class softmax, the probability mass assigned to
class 1 (`output[:, 1:]` after `self.softmax`), parameterized by the
exponential map. -/
def softmax1 (expf : ExpMap) (scores : ℚ × ℚ) : ℚ :=
  expf scores.2 / (expf scores.1 + expf scores.2)

/-- `torch.sign`: 1 on positives, -1 on negatives and 0 at 0. -/
def tsign (x : ℚ) : ℚ := if 0 < x then 1 else if x < 0 then -1 else 0

/-- `prob_to_BPSK_symbol`: `torch.sign(p - HALF)`, applied entrywise. -/
def prob_to_BPSK_symbol (p : ℚ) : ℚ := tsign (p - HALF)

/-- Modelled from the spec: `BPSKModulator.demodulate` (`channel/modulator.py`,
not under `src/`).  Per the spec it maps the symbol +1 to bit 1 and -1 to
bit 0; it is realized as the affine map `(s + 1) / 2`. -/
def BPSK_demodulate (s : ℚ) : ℚ := (s + 1) / 2

variable {Θ : Type}

/-- The augmented input row for one user:
`torch.cat((rx, probs_vec[:, idx]), dim=1)` restricted to row `row`, where
`idx` enumerates the users other than `user` in increasing order. -/
def augmentedInput (cfg : Config) (rx probs_vec : QMat) (user row : ℕ) : List ℚ :=
  (List.range cfg.n_ant).map (fun a => rx.entry row a) ++
    (((List.range cfg.n_user).filter (fun j => decide (j ≠ user))).map
      (fun j => probs_vec.entry row j))

/-- The matrix computed by `calculate_posteriors`: starts from
`torch.zeros(probs_vec.shape)` and fills column `user < n_user` with the
softmax class-1 mass of classifier `model[user][i - 1]` on the augmented
input (`preprocess` is the cast to float, the identity here). -/
def posteriorsMat (cfg : Config) (fw : ClassifierFw Θ) (expf : ExpMap)
    (model : ℕ → ℕ → Θ) (i : ℕ) (probs_vec rx : QMat) : QMat :=
  ⟨probs_vec.rows, probs_vec.cols, fun row user =>
    if user < cfg.n_user then
      softmax1 expf (fw (model user (i - 1)) (augmentedInput cfg rx probs_vec user row))
    else 0⟩

/-- `calculate_posteriors` as a state transformer.  The method reads
`self.n_user`, `self.softmax` and `self.preprocess` but assigns no attribute,
and the forward passes run under `torch.no_grad()`, so the trainer state
(including every classifier's parameters) is returned unchanged together with
the propagated probability matrix. -/
def calculate_posteriors (cfg : Config) (fw : ClassifierFw Θ) (expf : ExpMap)
    (s : TrainerState Θ) (model : ℕ → ℕ → Θ) (i : ℕ) (probs_vec rx : QMat) :
    TrainerState Θ × QMat :=
  (s, posteriorsMat cfg fw expf model i probs_vec rx)

/-- `init_priors`: `self.probs_vec` becomes
`HALF * ones(block_length - pilot_size, N_ANT)` and `self.pilots_probs_vec`
becomes `HALF * ones(pilot_size, N_ANT)`. -/
def init_priors (cfg : Config) (s : TrainerState Θ) : TrainerState Θ :=
  { s with
    probs_vec := ⟨cfg.block_length - cfg.pilot_size, cfg.n_ant, fun _ _ => HALF⟩
    pilots_probs_vec := ⟨cfg.pilot_size, cfg.n_ant, fun _ _ => HALF⟩ }

/-- `prepare_data_for_training`: per user `k`, the label column `tx[:, k]` and
the features `torch.cat((rx, probs_vec[:, idx]), dim=1)` with `idx` the users
other than `k`. -/
def prepare_data_for_training (cfg : Config) (tx rx probs_vec : QMat) :
    (ℕ → List ℚ) × (ℕ → QMat) :=
  (fun k => (List.range tx.rows).map (fun r => tx.entry r k),
   fun k =>
     let idx := (List.range cfg.n_user).filter (fun j => decide (j ≠ k))
     ⟨rx.rows, rx.cols + idx.length, fun r c =>
       if c < rx.cols then rx.entry r c
       else probs_vec.entry r (idx.getD (c - rx.cols) 0)⟩)

/-- `train_models`: for every `user < n_user` whose `train_users_list` flag is
set, cell `(user, i)` of the grid is refit in place on `(tx_all[user],
rx_all[user])`; every other cell is untouched. -/
def train_models (cfg : Config) (trainFn : TrainFn Θ) (train_users_list : ℕ → Bool)
    (model : ℕ → ℕ → Θ) (i : ℕ) (tx_all : ℕ → List ℚ) (rx_all : ℕ → QMat) :
    ℕ → ℕ → Θ :=
  fun u j =>
    if u < cfg.n_user ∧ train_users_list u = true ∧ j = i then
      trainFn (model u j) (tx_all u) (rx_all u)
    else model u j

/-- The training pipeline of `_online_training` applied to a given starting
grid `d0`: iteration 0 is trained on data built from the true symbols
(`initial_probs = tx.clone()`); for `i = 1 .. ITERATIONS - 1` the posteriors of
the partially trained grid (seeded from `HALF * ones(tx.shape)`) build the data
for iteration `i`. -/
def onlineTrainingDetector (cfg : Config) (fw : ClassifierFw Θ) (expf : ExpMap)
    (trainFn : TrainFn Θ) (train_users_list : ℕ → Bool) (d0 : ℕ → ℕ → Θ)
    (tx rx : QMat) : ℕ → ℕ → Θ :=
  let data0 := prepare_data_for_training cfg tx rx tx
  let d1 := train_models cfg trainFn train_users_list d0 0 data0.1 data0.2
  let probs0 : QMat := ⟨tx.rows, tx.cols, fun _ _ => HALF⟩
  ((List.range' 1 (ITERATIONS - 1)).foldl
    (fun (dp : (ℕ → ℕ → Θ) × QMat) i =>
      let probs := posteriorsMat cfg fw expf dp.1 i dp.2 rx
      let data := prepare_data_for_training cfg tx rx probs
      (train_models cfg trainFn train_users_list dp.1 i data.1 data.2, probs))
    (d1, probs0)).1

/-- `_online_training`: when `conf.mechanism == TRAINING_TYPES.DRIFT` the grid
is first re-created by `_initialize_detector()` (fresh `DeepSICDetector`
instances, abstracted as the grid `fresh`); then the sequential training
pipeline runs on the resulting grid. -/
def online_training (cfg : Config) (fw : ClassifierFw Θ) (expf : ExpMap)
    (trainFn : TrainFn Θ) (fresh : ℕ → ℕ → Θ) (s : TrainerState Θ)
    (tx rx : QMat) : TrainerState Θ :=
  let s1 := if cfg.mechanism = TRAINING_TYPES.DRIFT then { s with detector := fresh } else s
  { s1 with
    detector :=
      onlineTrainingDetector cfg fw expf trainFn s1.train_users_list s1.detector tx rx }

/-- The probability matrix after `k` propagation rounds starting from `q`:
round `i` (0-based) applies `calculate_posteriors` with iteration counter
`i + 1`. -/
def probsIter (cfg : Config) (fw : ClassifierFw Θ) (expf : ExpMap)
    (detector : ℕ → ℕ → Θ) (rx : QMat) (q : QMat) : ℕ → QMat
  | 0 => q
  | k + 1 => posteriorsMat cfg fw expf detector (k + 1)
      (probsIter cfg fw expf detector rx q k) rx

/-- `forward`: `init_priors`, then for `i in range(ITERATIONS)` the assignment
`self.probs_vec = self.calculate_posteriors(self.detector, i + 1,
self.probs_vec, rx)`, and finally
`BPSKModulator.demodulate(prob_to_BPSK_symbol(self.probs_vec))`. -/
def forward (cfg : Config) (fw : ClassifierFw Θ) (expf : ExpMap)
    (s : TrainerState Θ) (rx : QMat) : TrainerState Θ × QMat :=
  let s0 := init_priors cfg s
  let s1 := (List.range ITERATIONS).foldl
    (fun st i =>
      let r := calculate_posteriors cfg fw expf st st.detector (i + 1) st.probs_vec rx
      { r.1 with probs_vec := r.2 }) s0
  (s1, matMap (fun p => BPSK_demodulate (prob_to_BPSK_symbol p)) s1.probs_vec)

/-- Pointwise update of a doubly indexed family at cell `(u, i)`. -/
def upd2 {α : Type} (f : ℕ → ℕ → α) (u i : ℕ) (v : α) : ℕ → ℕ → α :=
  fun x j => if x = u ∧ j = i then v else f x j

/-- The pilot samples of one user and one class:
`pilots_probs_vec[rx_sb_idx, user]` where `rx_sb_idx` enumerates the rows of
`tx[:, user]` equal to the bit `b`. -/
def sampleList (tx probs : QMat) (user : ℕ) (b : ℚ) : List ℚ :=
  ((List.range tx.rows).filter (fun r => decide (tx.entry r user = b))).map
    (fun r => probs.entry r user)

/-- The loop-local state of `forward_pilot`: the current pilot probability
matrix, the local arrays `ht_mat`, `ht_s0_t_0`, `ht_s1_t_0`, and the instance
history buffers `prev_ht_s0`, `prev_ht_s1`. -/
structure PilotLoop where
  probs : QMat
  htMat : ℕ → ℕ → List ℚ
  hts0 : ℕ → ℕ → List ℚ
  hts1 : ℕ → ℕ → List ℚ
  prev0 : ℕ → ℕ → List ℚ
  prev1 : ℕ → ℕ → List ℚ

/-- The body of the inner `for user in range(self.n_user)` loop of
`forward_pilot` at iteration `i`: record the current class-conditional samples
in `ht_s0_t_0` / `ht_s1_t_0`; if `np.shape(self.prev_ht_s0[user][i])[0] != 0`
run the Hotelling test, which writes cell `(user, i)` of `ht_mat`; finally
overwrite `prev_ht_s0[user][i]` and `prev_ht_s1[user][i]` with copies of the
current samples. -/
def pilotUser (stat : DriftStat) (tx : QMat) (i : ℕ) (ps : PilotLoop) (user : ℕ) :
    PilotLoop :=
  { probs := ps.probs
    htMat :=
      if (ps.prev0 user i).length ≠ 0 then
        upd2 ps.htMat user i
          [stat (sampleList tx ps.probs user 0) (sampleList tx ps.probs user 1)
            (ps.prev0 user i) (ps.prev1 user i)]
      else ps.htMat
    hts0 := upd2 ps.hts0 user i (sampleList tx ps.probs user 0)
    hts1 := upd2 ps.hts1 user i (sampleList tx ps.probs user 1)
    prev0 := upd2 ps.prev0 user i (sampleList tx ps.probs user 0)
    prev1 := upd2 ps.prev1 user i (sampleList tx ps.probs user 1) }

/-- One iteration of the outer loop of `forward_pilot`: the assignment
`self.pilots_probs_vec = self.calculate_posteriors(self.detector, i + 1,
self.pilots_probs_vec, rx)` followed by the per-user loop. -/
def pilotIter (cfg : Config) (fw : ClassifierFw Θ) (expf : ExpMap)
    (stat : DriftStat) (detector : ℕ → ℕ → Θ) (rx tx : QMat) (ps : PilotLoop)
    (i : ℕ) : PilotLoop :=
  (List.range cfg.n_user).foldl (pilotUser stat tx i)
    { ps with probs := posteriorsMat cfg fw expf detector (i + 1) ps.probs rx }

/-- The loop-local state after the full double loop of `forward_pilot`:
`ht_mat`, `ht_s0_t_0` and `ht_s1_t_0` start as `[[[] ...]]`, the history
buffers start from the trainer state, and the probability matrix starts from
`init_priors`. -/
def pilotLoopResult (cfg : Config) (fw : ClassifierFw Θ) (expf : ExpMap)
    (stat : DriftStat) (s : TrainerState Θ) (rx tx : QMat) : PilotLoop :=
  let s0 := init_priors cfg s
  (List.range ITERATIONS).foldl (pilotIter cfg fw expf stat s0.detector rx tx)
    { probs := s0.pilots_probs_vec
      htMat := fun _ _ => []
      hts0 := fun _ _ => []
      hts1 := fun _ _ => []
      prev0 := s0.prev_ht_s0
      prev1 := s0.prev_ht_s1 }

/-- `forward_pilot`: run the pilot loop; then, if
`np.prod(np.shape(ht_mat[n_user - 1][ITERATIONS - 1])) != 0` (the cell of the
LAST user at the LAST iteration is non-empty), set
`self.ht = [row[ITERATIONS - 1] for row in ht_mat]`; finally demodulate the
hard-thresholded pilot probabilities.  Returns the new state together with the
pair `(detected_word, self.pilots_probs_vec)` returned by the source. -/
def forward_pilot (cfg : Config) (fw : ClassifierFw Θ) (expf : ExpMap)
    (stat : DriftStat) (s : TrainerState Θ) (rx tx : QMat) :
    TrainerState Θ × QMat × QMat :=
  let s0 := init_priors cfg s
  let fin := pilotLoopResult cfg fw expf stat s rx tx
  let ht' : ℕ → HtEntry :=
    if (fin.htMat (cfg.n_user - 1) (ITERATIONS - 1)).length ≠ 0 then
      fun u => if u < cfg.n_user then HtEntry.samples (fin.htMat u (ITERATIONS - 1))
               else s0.ht u
    else s0.ht
  ({ s0 with
      pilots_probs_vec := fin.probs
      prev_ht_s0 := fin.prev0
      prev_ht_s1 := fin.prev1
      ht := ht' },
   matMap (fun p => BPSK_demodulate (prob_to_BPSK_symbol p)) fin.probs, fin.probs)

/-- The pilot probability matrix after `k` propagation rounds of
`forward_pilot` (round `i` uses iteration counter `i + 1`), starting from the
uniform priors of `init_priors`. -/
def pilotProbsAt (cfg : Config) (fw : ClassifierFw Θ) (expf : ExpMap)
    (detector : ℕ → ℕ → Θ) (rx : QMat) (k : ℕ) : QMat :=
  probsIter cfg fw expf detector rx ⟨cfg.pilot_size, cfg.n_ant, fun _ _ => HALF⟩ k

/-- The current pilot-derived samples of class `b` for `(user, i)` in a call of
`forward_pilot` on state `s`: the class-`b` rows of the pilot probability
matrix after round `i`. -/
def currentPilotSamples (cfg : Config) (fw : ClassifierFw Θ) (expf : ExpMap)
    (s : TrainerState Θ) (rx tx : QMat) (b : ℚ) (user i : ℕ) : List ℚ :=
  sampleList tx (pilotProbsAt cfg fw expf s.detector rx (i + 1)) user b


/-! ## Concrete instances used for witnesses and counterexamples -/

/-- A concrete two-user, two-antenna configuration in drift-adaptive mode. -/
def cfgA : Config := ⟨2, 2, 2, 1, TRAINING_TYPES.DRIFT⟩

/-- A concrete two-user, two-antenna configuration in a non-drift mode. -/
def cfgB : Config := ⟨2, 2, 2, 1, TRAINING_TYPES.ALWAYS⟩

/-- A concrete configuration whose antenna count (2) differs from its user
count (3). -/
def cfgC : Config := ⟨3, 2, 10, 2, TRAINING_TYPES.ALWAYS⟩

/-- A concrete parameterless classifier forward pass. -/
def fwU : ClassifierFw Unit := fun _ _ => (0, 0)

/-- A concrete positive stand-in for the exponential map. -/
def expfU : ExpMap := fun _ => 1

/-- A concrete drift statistic function. -/
def statU : DriftStat := fun _ _ _ _ => 0

/-- An empty placeholder matrix. -/
def mat0 : QMat := ⟨0, 0, fun _ _ => 0⟩

/-- A completely fresh concrete trainer state: every history buffer empty. -/
def sFresh : TrainerState Unit :=
  ⟨fun _ _ => (), fun _ => HtEntry.scalar 0, fun _ _ => [], fun _ _ => [],
   mat0, mat0, fun _ => true⟩

/-- A concrete trainer state whose class-0 history is non-empty for user 1
(only) and whose class-1 history is empty everywhere. -/
def sHist : TrainerState Unit :=
  ⟨fun _ _ => (), fun _ => HtEntry.scalar 0,
   fun u _ => if u = 1 then [0] else [], fun _ _ => [],
   mat0, mat0, fun _ => true⟩

/-- Concrete pilot labels: one pilot row, two users; user 0 sent bit 0 and
user 1 sent bit 1. -/
def txP : QMat := ⟨1, 2, fun _ u => if u = 1 then 1 else 0⟩

/-- Concrete received observations for the pilot row. -/
def rxP : QMat := ⟨1, 2, fun _ _ => 0⟩

/-- A concrete probability matrix with every entry 0.5. -/
def pHalf : QMat := ⟨1, 2, fun _ _ => HALF⟩

/-- A concrete trainer state over the parameter space `ℚ` with the all-zero
grid. -/
def sQ0 : TrainerState ℚ :=
  ⟨fun _ _ => 0, fun _ => HtEntry.scalar 0, fun _ _ => [], fun _ _ => [],
   mat0, mat0, fun _ => true⟩

/-- `sQ0` with a different classifier grid (all parameters 1). -/
def sQ1 : TrainerState ℚ := { sQ0 with detector := fun _ _ => 1 }

/-- `sQ0` with a different drift-statistic field but the same grid. -/
def sQ2 : TrainerState ℚ := { sQ0 with ht := fun _ => HtEntry.scalar 1 }

/-- A concrete classifier forward pass over parameter space `ℚ`. -/
def fwQ : ClassifierFw ℚ := fun p _ => (p, p + 1)

/-- A concrete training function over parameter space `ℚ`. -/
def trainQ : TrainFn ℚ := fun p _ _ => p + 1

/-- A concrete fresh grid over parameter space `ℚ`. -/
def freshQ : ℕ → ℕ → ℚ := fun _ _ => 5

/-- A concrete per-user training-enable flag: only user 1 enabled. -/
def tulW : ℕ → Bool := fun u => decide (u = 1)

/-- Concrete per-user training labels. -/
def txAllW : ℕ → List ℚ := fun _ => []

/-- Concrete per-user training features. -/
def rxAllW : ℕ → QMat := fun _ => mat0

/-! ## Characterization of the pilot double loop -/

theorem pilotUser_probs (stat : DriftStat) (tx : QMat) (i : ℕ) (ps : PilotLoop)
    (user : ℕ) : (pilotUser stat tx i ps user).probs = ps.probs := rfl

theorem pilotUser_prev0_apply (stat : DriftStat) (tx : QMat) (i : ℕ)
    (ps : PilotLoop) (user u j : ℕ) :
    (pilotUser stat tx i ps user).prev0 u j
      = if u = user ∧ j = i then sampleList tx ps.probs user 0
        else ps.prev0 u j := rfl

theorem pilotUser_prev1_apply (stat : DriftStat) (tx : QMat) (i : ℕ)
    (ps : PilotLoop) (user u j : ℕ) :
    (pilotUser stat tx i ps user).prev1 u j
      = if u = user ∧ j = i then sampleList tx ps.probs user 1
        else ps.prev1 u j := rfl

theorem pilotUser_htMat_apply (stat : DriftStat) (tx : QMat) (i : ℕ)
    (ps : PilotLoop) (user u j : ℕ) :
    (pilotUser stat tx i ps user).htMat u j
      = if (ps.prev0 user i).length ≠ 0 then
          (if u = user ∧ j = i then
            [stat (sampleList tx ps.probs user 0) (sampleList tx ps.probs user 1)
              (ps.prev0 user i) (ps.prev1 user i)]
          else ps.htMat u j)
        else ps.htMat u j := by
  show (if (ps.prev0 user i).length ≠ 0 then
      upd2 ps.htMat user i
        [stat (sampleList tx ps.probs user 0) (sampleList tx ps.probs user 1)
          (ps.prev0 user i) (ps.prev1 user i)]
    else ps.htMat) u j = _
  by_cases hg : (ps.prev0 user i).length ≠ 0
  · rw [if_pos hg, if_pos hg]; rfl
  · rw [if_neg hg, if_neg hg]

theorem foldl_pilotUser_probs (stat : DriftStat) (tx : QMat) (i : ℕ)
    (l : List ℕ) (ps : PilotLoop) :
    (l.foldl (pilotUser stat tx i) ps).probs = ps.probs := by
  induction l generalizing ps with
  | nil => rfl
  | cons a t ih => rw [List.foldl_cons, ih, pilotUser_probs]

theorem foldl_pilotUser_prev0 (stat : DriftStat) (tx : QMat) (i n : ℕ)
    (ps : PilotLoop) (u j : ℕ) :
    ((List.range n).foldl (pilotUser stat tx i) ps).prev0 u j
      = if u < n ∧ j = i then sampleList tx ps.probs u 0 else ps.prev0 u j := by
  induction n with
  | zero => simp
  | succ n ih =>
    rw [List.range_succ, List.foldl_append, List.foldl_cons, List.foldl_nil,
      pilotUser_prev0_apply, foldl_pilotUser_probs, ih]
    by_cases hj : j = i
    · subst hj
      by_cases hu : u = n
      · subst hu
        simp [Nat.lt_succ_self]
      · by_cases h : u < n
        · simp [hu, h, Nat.lt_succ_of_lt h]
        · have h2 : ¬ u < n + 1 := by omega
          simp [hu, h, h2]
    · simp [hj]

theorem foldl_pilotUser_prev1 (stat : DriftStat) (tx : QMat) (i n : ℕ)
    (ps : PilotLoop) (u j : ℕ) :
    ((List.range n).foldl (pilotUser stat tx i) ps).prev1 u j
      = if u < n ∧ j = i then sampleList tx ps.probs u 1 else ps.prev1 u j := by
  induction n with
  | zero => simp
  | succ n ih =>
    rw [List.range_succ, List.foldl_append, List.foldl_cons, List.foldl_nil,
      pilotUser_prev1_apply, foldl_pilotUser_probs, ih]
    by_cases hj : j = i
    · subst hj
      by_cases hu : u = n
      · subst hu
        simp [Nat.lt_succ_self]
      · by_cases h : u < n
        · simp [hu, h, Nat.lt_succ_of_lt h]
        · have h2 : ¬ u < n + 1 := by omega
          simp [hu, h, h2]
    · simp [hj]

theorem foldl_pilotUser_htMat (stat : DriftStat) (tx : QMat) (i n : ℕ)
    (ps : PilotLoop) (u j : ℕ) :
    ((List.range n).foldl (pilotUser stat tx i) ps).htMat u j
      = if u < n ∧ j = i ∧ (ps.prev0 u j).length ≠ 0 then
          [stat (sampleList tx ps.probs u 0) (sampleList tx ps.probs u 1)
            (ps.prev0 u j) (ps.prev1 u j)]
        else ps.htMat u j := by
  induction n with
  | zero => simp
  | succ n ih =>
    rw [List.range_succ, List.foldl_append, List.foldl_cons, List.foldl_nil,
      pilotUser_htMat_apply, foldl_pilotUser_probs]
    have hp0 : ((List.range n).foldl (pilotUser stat tx i) ps).prev0 n i
        = ps.prev0 n i := by
      rw [foldl_pilotUser_prev0]
      simp
    have hp1 : ((List.range n).foldl (pilotUser stat tx i) ps).prev1 n i
        = ps.prev1 n i := by
      rw [foldl_pilotUser_prev1]
      simp
    rw [hp0, hp1, ih]
    by_cases hj : j = i
    · by_cases hu : u = n
      · by_cases hg : (ps.prev0 u j).length ≠ 0
        · have hg' : (ps.prev0 n i).length ≠ 0 := by rw [← hu, ← hj]; exact hg
          rw [if_pos hg', if_pos ⟨hu, hj⟩, if_pos ⟨by omega, hj, hg⟩, hu, hj]
        · have hg' : ¬ (ps.prev0 n i).length ≠ 0 := by rw [← hu, ← hj]; exact hg
          have c1 : ¬ (u < n ∧ j = i ∧ (ps.prev0 u j).length ≠ 0) := by tauto
          have c2 : ¬ (u < n + 1 ∧ j = i ∧ (ps.prev0 u j).length ≠ 0) := by tauto
          rw [if_neg hg', if_neg c1, if_neg c2]
      · have hne : ¬ (u = n ∧ j = i) := by tauto
        by_cases hC : u < n ∧ j = i ∧ (ps.prev0 u j).length ≠ 0
        · have hD : u < n + 1 ∧ j = i ∧ (ps.prev0 u j).length ≠ 0 :=
            ⟨by omega, hC.2⟩
          by_cases hg' : (ps.prev0 n i).length ≠ 0
          · rw [if_pos hg', if_neg hne, if_pos hC, if_pos hD]
          · rw [if_neg hg', if_pos hC, if_pos hD]
        · have hD : ¬ (u < n + 1 ∧ j = i ∧ (ps.prev0 u j).length ≠ 0) :=
            fun hd => hC ⟨by omega, hd.2⟩
          by_cases hg' : (ps.prev0 n i).length ≠ 0
          · rw [if_pos hg', if_neg hne, if_neg hC, if_neg hD]
          · rw [if_neg hg', if_neg hC, if_neg hD]
    · have hne : ¬ (u = n ∧ j = i) := by tauto
      have c1 : ¬ (u < n ∧ j = i ∧ (ps.prev0 u j).length ≠ 0) := by tauto
      have c2 : ¬ (u < n + 1 ∧ j = i ∧ (ps.prev0 u j).length ≠ 0) := by tauto
      by_cases hg : (ps.prev0 n i).length ≠ 0
      · rw [if_pos hg, if_neg hne, if_neg c1, if_neg c2]
      · rw [if_neg hg, if_neg c1, if_neg c2]

theorem pilotIter_probs (cfg : Config) (fw : ClassifierFw Θ) (expf : ExpMap)
    (stat : DriftStat) (detector : ℕ → ℕ → Θ) (rx tx : QMat) (ps : PilotLoop)
    (i : ℕ) :
    (pilotIter cfg fw expf stat detector rx tx ps i).probs
      = posteriorsMat cfg fw expf detector (i + 1) ps.probs rx := by
  unfold pilotIter
  rw [foldl_pilotUser_probs]

theorem pilotIter_prev0_apply (cfg : Config) (fw : ClassifierFw Θ) (expf : ExpMap)
    (stat : DriftStat) (detector : ℕ → ℕ → Θ) (rx tx : QMat) (ps : PilotLoop)
    (i u j : ℕ) :
    (pilotIter cfg fw expf stat detector rx tx ps i).prev0 u j
      = if u < cfg.n_user ∧ j = i then
          sampleList tx (posteriorsMat cfg fw expf detector (i + 1) ps.probs rx) u 0
        else ps.prev0 u j := by
  unfold pilotIter
  rw [foldl_pilotUser_prev0]

theorem pilotIter_prev1_apply (cfg : Config) (fw : ClassifierFw Θ) (expf : ExpMap)
    (stat : DriftStat) (detector : ℕ → ℕ → Θ) (rx tx : QMat) (ps : PilotLoop)
    (i u j : ℕ) :
    (pilotIter cfg fw expf stat detector rx tx ps i).prev1 u j
      = if u < cfg.n_user ∧ j = i then
          sampleList tx (posteriorsMat cfg fw expf detector (i + 1) ps.probs rx) u 1
        else ps.prev1 u j := by
  unfold pilotIter
  rw [foldl_pilotUser_prev1]

theorem pilotIter_htMat_apply (cfg : Config) (fw : ClassifierFw Θ) (expf : ExpMap)
    (stat : DriftStat) (detector : ℕ → ℕ → Θ) (rx tx : QMat) (ps : PilotLoop)
    (i u j : ℕ) :
    (pilotIter cfg fw expf stat detector rx tx ps i).htMat u j
      = if u < cfg.n_user ∧ j = i ∧ (ps.prev0 u j).length ≠ 0 then
          [stat (sampleList tx (posteriorsMat cfg fw expf detector (i + 1) ps.probs rx) u 0)
            (sampleList tx (posteriorsMat cfg fw expf detector (i + 1) ps.probs rx) u 1)
            (ps.prev0 u j) (ps.prev1 u j)]
        else ps.htMat u j := by
  unfold pilotIter
  rw [foldl_pilotUser_htMat]

theorem probsIter_succ (cfg : Config) (fw : ClassifierFw Θ) (expf : ExpMap)
    (detector : ℕ → ℕ → Θ) (rx q : QMat) (k : ℕ) :
    probsIter cfg fw expf detector rx q (k + 1)
      = posteriorsMat cfg fw expf detector (k + 1)
          (probsIter cfg fw expf detector rx q k) rx := rfl

theorem foldl_pilotIter_probs (cfg : Config) (fw : ClassifierFw Θ) (expf : ExpMap)
    (stat : DriftStat) (detector : ℕ → ℕ → Θ) (rx tx : QMat) (ps : PilotLoop)
    (k : ℕ) :
    ((List.range k).foldl (pilotIter cfg fw expf stat detector rx tx) ps).probs
      = probsIter cfg fw expf detector rx ps.probs k := by
  induction k with
  | zero => rfl
  | succ k ih =>
    rw [List.range_succ, List.foldl_append, List.foldl_cons, List.foldl_nil,
      pilotIter_probs, ih, probsIter_succ]

theorem foldl_pilotIter_prev0 (cfg : Config) (fw : ClassifierFw Θ) (expf : ExpMap)
    (stat : DriftStat) (detector : ℕ → ℕ → Θ) (rx tx : QMat) (ps : PilotLoop)
    (k u j : ℕ) :
    ((List.range k).foldl (pilotIter cfg fw expf stat detector rx tx) ps).prev0 u j
      = if u < cfg.n_user ∧ j < k then
          sampleList tx (probsIter cfg fw expf detector rx ps.probs (j + 1)) u 0
        else ps.prev0 u j := by
  induction k with
  | zero => simp
  | succ k ih =>
    rw [List.range_succ, List.foldl_append, List.foldl_cons, List.foldl_nil,
      pilotIter_prev0_apply, foldl_pilotIter_probs, ← probsIter_succ, ih]
    by_cases hj : j = k
    · by_cases hu : u < cfg.n_user
      · rw [if_pos ⟨hu, hj⟩, if_pos ⟨hu, by omega⟩, hj]
      · have c1 : ¬ (u < cfg.n_user ∧ j = k) := by tauto
        have c2 : ¬ (u < cfg.n_user ∧ j < k) := by tauto
        have c3 : ¬ (u < cfg.n_user ∧ j < k + 1) := by tauto
        rw [if_neg c1, if_neg c2, if_neg c3]
    · have hne : ¬ (u < cfg.n_user ∧ j = k) := by tauto
      by_cases hC : u < cfg.n_user ∧ j < k
      · rw [if_neg hne, if_pos hC, if_pos ⟨hC.1, by omega⟩]
      · have hD : ¬ (u < cfg.n_user ∧ j < k + 1) := fun hd => hC ⟨hd.1, by omega⟩
        rw [if_neg hne, if_neg hC, if_neg hD]

theorem foldl_pilotIter_prev1 (cfg : Config) (fw : ClassifierFw Θ) (expf : ExpMap)
    (stat : DriftStat) (detector : ℕ → ℕ → Θ) (rx tx : QMat) (ps : PilotLoop)
    (k u j : ℕ) :
    ((List.range k).foldl (pilotIter cfg fw expf stat detector rx tx) ps).prev1 u j
      = if u < cfg.n_user ∧ j < k then
          sampleList tx (probsIter cfg fw expf detector rx ps.probs (j + 1)) u 1
        else ps.prev1 u j := by
  induction k with
  | zero => simp
  | succ k ih =>
    rw [List.range_succ, List.foldl_append, List.foldl_cons, List.foldl_nil,
      pilotIter_prev1_apply, foldl_pilotIter_probs, ← probsIter_succ, ih]
    by_cases hj : j = k
    · by_cases hu : u < cfg.n_user
      · rw [if_pos ⟨hu, hj⟩, if_pos ⟨hu, by omega⟩, hj]
      · have c1 : ¬ (u < cfg.n_user ∧ j = k) := by tauto
        have c2 : ¬ (u < cfg.n_user ∧ j < k) := by tauto
        have c3 : ¬ (u < cfg.n_user ∧ j < k + 1) := by tauto
        rw [if_neg c1, if_neg c2, if_neg c3]
    · have hne : ¬ (u < cfg.n_user ∧ j = k) := by tauto
      by_cases hC : u < cfg.n_user ∧ j < k
      · rw [if_neg hne, if_pos hC, if_pos ⟨hC.1, by omega⟩]
      · have hD : ¬ (u < cfg.n_user ∧ j < k + 1) := fun hd => hC ⟨hd.1, by omega⟩
        rw [if_neg hne, if_neg hC, if_neg hD]

theorem foldl_pilotIter_htMat (cfg : Config) (fw : ClassifierFw Θ) (expf : ExpMap)
    (stat : DriftStat) (detector : ℕ → ℕ → Θ) (rx tx : QMat) (ps : PilotLoop)
    (k u j : ℕ) :
    ((List.range k).foldl (pilotIter cfg fw expf stat detector rx tx) ps).htMat u j
      = if u < cfg.n_user ∧ j < k ∧ (ps.prev0 u j).length ≠ 0 then
          [stat (sampleList tx (probsIter cfg fw expf detector rx ps.probs (j + 1)) u 0)
            (sampleList tx (probsIter cfg fw expf detector rx ps.probs (j + 1)) u 1)
            (ps.prev0 u j) (ps.prev1 u j)]
        else ps.htMat u j := by
  induction k with
  | zero => simp
  | succ k ih =>
    rw [List.range_succ, List.foldl_append, List.foldl_cons, List.foldl_nil,
      pilotIter_htMat_apply, foldl_pilotIter_probs, ← probsIter_succ]
    by_cases hj : j = k
    · have hp0 : ((List.range k).foldl
          (pilotIter cfg fw expf stat detector rx tx) ps).prev0 u j
            = ps.prev0 u j := by
        rw [foldl_pilotIter_prev0, if_neg (fun h => absurd h.2 (by omega))]
      have hp1 : ((List.range k).foldl
          (pilotIter cfg fw expf stat detector rx tx) ps).prev1 u j
            = ps.prev1 u j := by
        rw [foldl_pilotIter_prev1, if_neg (fun h => absurd h.2 (by omega))]
      rw [hp0, hp1, ih]
      by_cases hu : u < cfg.n_user
      · by_cases hg : (ps.prev0 u j).length ≠ 0
        · rw [if_pos ⟨hu, hj, hg⟩, if_pos ⟨hu, by omega, hg⟩, hj]
        · have c1 : ¬ (u < cfg.n_user ∧ j = k ∧ (ps.prev0 u j).length ≠ 0) := by
            tauto
          have c2 : ¬ (u < cfg.n_user ∧ j < k ∧ (ps.prev0 u j).length ≠ 0) := by
            tauto
          have c3 : ¬ (u < cfg.n_user ∧ j < k + 1 ∧ (ps.prev0 u j).length ≠ 0) := by
            tauto
          rw [if_neg c1, if_neg c2, if_neg c3]
      · have c1 : ¬ (u < cfg.n_user ∧ j = k ∧ (ps.prev0 u j).length ≠ 0) := by
          tauto
        have c2 : ¬ (u < cfg.n_user ∧ j < k ∧ (ps.prev0 u j).length ≠ 0) := by
          tauto
        have c3 : ¬ (u < cfg.n_user ∧ j < k + 1 ∧ (ps.prev0 u j).length ≠ 0) := by
          tauto
        rw [if_neg c1, if_neg c2, if_neg c3]
    · have hne : ¬ (u < cfg.n_user ∧ j = k
        ∧ (((List.range k).foldl
            (pilotIter cfg fw expf stat detector rx tx) ps).prev0 u j).length ≠ 0) := by
        tauto
      rw [if_neg hne, ih]
      by_cases hC : u < cfg.n_user ∧ j < k ∧ (ps.prev0 u j).length ≠ 0
      · rw [if_pos hC, if_pos ⟨hC.1, by omega, hC.2.2⟩]
      · have hD : ¬ (u < cfg.n_user ∧ j < k + 1 ∧ (ps.prev0 u j).length ≠ 0) :=
          fun hd => hC ⟨hd.1, by omega, hd.2.2⟩
        rw [if_neg hC, if_neg hD]

/-! ## Projection lemmas for the state transformers -/

theorem init_priors_prev0 (cfg : Config) (s : TrainerState Θ) :
    (init_priors cfg s).prev_ht_s0 = s.prev_ht_s0 := rfl

theorem init_priors_prev1 (cfg : Config) (s : TrainerState Θ) :
    (init_priors cfg s).prev_ht_s1 = s.prev_ht_s1 := rfl

theorem init_priors_ht (cfg : Config) (s : TrainerState Θ) :
    (init_priors cfg s).ht = s.ht := rfl

theorem init_priors_detector (cfg : Config) (s : TrainerState Θ) :
    (init_priors cfg s).detector = s.detector := rfl

theorem forward_fst_probs_vec (cfg : Config) (fw : ClassifierFw Θ) (expf : ExpMap)
    (s : TrainerState Θ) (rx : QMat) :
    ((forward cfg fw expf s rx).1).probs_vec
      = probsIter cfg fw expf s.detector rx
          ⟨cfg.block_length - cfg.pilot_size, cfg.n_ant, fun _ _ => HALF⟩
          ITERATIONS := rfl

theorem forward_fst_detector (cfg : Config) (fw : ClassifierFw Θ) (expf : ExpMap)
    (s : TrainerState Θ) (rx : QMat) :
    ((forward cfg fw expf s rx).1).detector = s.detector := rfl

theorem forward_snd_eq (cfg : Config) (fw : ClassifierFw Θ) (expf : ExpMap)
    (s : TrainerState Θ) (rx : QMat) :
    (forward cfg fw expf s rx).2
      = matMap (fun p => BPSK_demodulate (prob_to_BPSK_symbol p))
          (probsIter cfg fw expf s.detector rx
            ⟨cfg.block_length - cfg.pilot_size, cfg.n_ant, fun _ _ => HALF⟩
            ITERATIONS) := rfl

theorem forward_pilot_ht (cfg : Config) (fw : ClassifierFw Θ) (expf : ExpMap)
    (stat : DriftStat) (s : TrainerState Θ) (rx tx : QMat) :
    ((forward_pilot cfg fw expf stat s rx tx).1).ht
      = if (((pilotLoopResult cfg fw expf stat s rx tx).htMat (cfg.n_user - 1)
            (ITERATIONS - 1)).length ≠ 0) then
          (fun u => if u < cfg.n_user then
              HtEntry.samples
                ((pilotLoopResult cfg fw expf stat s rx tx).htMat u (ITERATIONS - 1))
            else s.ht u)
        else s.ht := rfl

theorem forward_pilot_prev0 (cfg : Config) (fw : ClassifierFw Θ) (expf : ExpMap)
    (stat : DriftStat) (s : TrainerState Θ) (rx tx : QMat) :
    ((forward_pilot cfg fw expf stat s rx tx).1).prev_ht_s0
      = (pilotLoopResult cfg fw expf stat s rx tx).prev0 := rfl

theorem forward_pilot_prev1 (cfg : Config) (fw : ClassifierFw Θ) (expf : ExpMap)
    (stat : DriftStat) (s : TrainerState Θ) (rx tx : QMat) :
    ((forward_pilot cfg fw expf stat s rx tx).1).prev_ht_s1
      = (pilotLoopResult cfg fw expf stat s rx tx).prev1 := rfl

theorem online_training_detector (cfg : Config) (fw : ClassifierFw Θ)
    (expf : ExpMap) (trainFn : TrainFn Θ) (fresh : ℕ → ℕ → Θ)
    (s : TrainerState Θ) (tx rx : QMat) :
    (online_training cfg fw expf trainFn fresh s tx rx).detector
      = onlineTrainingDetector cfg fw expf trainFn s.train_users_list
          (if cfg.mechanism = TRAINING_TYPES.DRIFT then fresh else s.detector)
          tx rx := by
  by_cases hm : cfg.mechanism = TRAINING_TYPES.DRIFT
  · simp only [online_training, if_pos hm]
  · simp only [online_training, if_neg hm]

/-! ## Claim theorems -/

/-- Claim C5. For every input probability vector whose entries lie in [0, 1] and
every observation matrix, every entry of the probability matrix returned by
`calculate_posteriors` lies in [0, 1], and each in-grid entry equals the
softmax probability mass assigned to class 1 by the corresponding user's
classifier at grid index `i - 1` (the exponential map of the softmax being
positive, as the real exponential is). -/
theorem C5_posteriors_unit_interval (cfg : Config) (fw : ClassifierFw Θ)
    (expf : ExpMap) (s : TrainerState Θ) (model : ℕ → ℕ → Θ) (i : ℕ)
    (probs_vec rx : QMat) (hexp : ∀ x, 0 < expf x)
    (hp : ∀ r c, 0 ≤ probs_vec.entry r c ∧ probs_vec.entry r c ≤ 1) :
    ∀ row user,
      (0 ≤ ((calculate_posteriors cfg fw expf s model i probs_vec rx).2).entry row user
        ∧ ((calculate_posteriors cfg fw expf s model i probs_vec rx).2).entry row user ≤ 1)
      ∧ (user < cfg.n_user →
          ((calculate_posteriors cfg fw expf s model i probs_vec rx).2).entry row user
            = softmax1 expf (fw (model user (i - 1))
                (augmentedInput cfg rx probs_vec user row))) := by
  intro row user
  constructor
  · show 0 ≤ (posteriorsMat cfg fw expf model i probs_vec rx).entry row user
      ∧ (posteriorsMat cfg fw expf model i probs_vec rx).entry row user ≤ 1
    unfold posteriorsMat
    dsimp only
    by_cases hu : user < cfg.n_user
    · rw [if_pos hu]
      unfold softmax1
      have h1 := hexp (fw (model user (i - 1)) (augmentedInput cfg rx probs_vec user row)).1
      have h2 := hexp (fw (model user (i - 1)) (augmentedInput cfg rx probs_vec user row)).2
      constructor
      · exact le_of_lt (div_pos h2 (by linarith))
      · rw [div_le_one (by linarith)]
        linarith
    · rw [if_neg hu]
      norm_num
  · intro hu
    show (posteriorsMat cfg fw expf model i probs_vec rx).entry row user = _
    unfold posteriorsMat
    dsimp only
    rw [if_pos hu]

/-- Concrete instantiation of C5 at the uniform-prior matrix. -/
theorem C5_posteriors_unit_interval_witness :
    (∀ x, (0 : ℚ) < expfU x)
    ∧ (∀ r c, 0 ≤ pHalf.entry r c ∧ pHalf.entry r c ≤ 1)
    ∧ (0 ≤ ((calculate_posteriors cfgA fwU expfU sFresh sFresh.detector 1 pHalf rxP).2).entry 0 0
        ∧ ((calculate_posteriors cfgA fwU expfU sFresh sFresh.detector 1 pHalf rxP).2).entry 0 0 ≤ 1) :=
  have hexp : ∀ x, (0 : ℚ) < expfU x := fun _ => one_pos
  have hp : ∀ r c, 0 ≤ pHalf.entry r c ∧ pHalf.entry r c ≤ 1 := by
    intro r c
    constructor
    · norm_num [pHalf, HALF]
    · norm_num [pHalf, HALF]
  ⟨hexp, hp,
    (C5_posteriors_unit_interval cfgA fwU expfU sFresh sFresh.detector 1 pHalf rxP
      hexp hp 0 0).1⟩

/-- Claim C7. A call of `calculate_posteriors` leaves the trainer state — and in
particular the parameters of every classifier in the grid — unchanged:
inference only, no gradient computation. -/
theorem C7_posteriors_frame (cfg : Config) (fw : ClassifierFw Θ) (expf : ExpMap)
    (s : TrainerState Θ) (model : ℕ → ℕ → Θ) (i : ℕ) (probs_vec rx : QMat) :
    (calculate_posteriors cfg fw expf s model i probs_vec rx).1 = s
    ∧ ∀ u j, ((calculate_posteriors cfg fw expf s model i probs_vec rx).1).detector u j
        = s.detector u j :=
  ⟨rfl, fun _ _ => rfl⟩

/-- Claim C8. In `train_models` at iteration `i`, a user whose training flag is
disabled keeps the parameters of its iteration-`i` classifier, and no grid cell
at an iteration other than `i` is mutated for any user. -/
theorem C8_train_models_frame (cfg : Config) (trainFn : TrainFn Θ)
    (tul : ℕ → Bool) (model : ℕ → ℕ → Θ) (i : ℕ) (tx_all : ℕ → List ℚ)
    (rx_all : ℕ → QMat) :
    (∀ u, tul u = false →
        train_models cfg trainFn tul model i tx_all rx_all u i = model u i)
    ∧ (∀ u j, j ≠ i →
        train_models cfg trainFn tul model i tx_all rx_all u j = model u j) := by
  constructor
  · intro u hu
    unfold train_models
    rw [if_neg (fun h => by rw [hu] at h; exact Bool.false_ne_true h.2.1)]
  · intro u j hj
    unfold train_models
    rw [if_neg (fun h => hj h.2.2)]

/-- Concrete instantiation of C8: user 0 is disabled, so its cell is kept, and
cells at other iterations are kept. -/
theorem C8_train_models_frame_witness :
    tulW 0 = false
    ∧ train_models cfgA trainQ tulW sQ0.detector 1 txAllW rxAllW 0 1 = sQ0.detector 0 1
    ∧ train_models cfgA trainQ tulW sQ0.detector 1 txAllW rxAllW 0 0 = sQ0.detector 0 0 :=
  ⟨rfl,
   (C8_train_models_frame cfgA trainQ tulW sQ0.detector 1 txAllW rxAllW).1 0 rfl,
   (C8_train_models_frame cfgA trainQ tulW sQ0.detector 1 txAllW rxAllW).2 0 0
     (by decide)⟩

/-- Claim C9. Inference is deterministic: with the same classifier grid and the
same inputs, `calculate_posteriors` returns equal probability matrices and
`forward` returns equal detected words, whatever the rest of the trainer state
(histories, statistics, stale probability fields) is. -/
theorem C9_inference_deterministic (cfg : Config) (fw : ClassifierFw Θ)
    (expf : ExpMap) (s₁ s₂ : TrainerState Θ) (model : ℕ → ℕ → Θ) (i : ℕ)
    (probs_vec rx : QMat) (hdet : s₁.detector = s₂.detector) :
    (calculate_posteriors cfg fw expf s₁ model i probs_vec rx).2
        = (calculate_posteriors cfg fw expf s₂ model i probs_vec rx).2
    ∧ (forward cfg fw expf s₁ rx).2 = (forward cfg fw expf s₂ rx).2 := by
  constructor
  · rfl
  · rw [forward_snd_eq, forward_snd_eq, hdet]

/-- Concrete instantiation of C9 at two states sharing a grid but differing in
their drift-statistic field. -/
theorem C9_inference_deterministic_witness :
    sQ0.detector = sQ2.detector
    ∧ (forward cfgA fwQ expfU sQ0 rxP).2 = (forward cfgA fwQ expfU sQ2 rxP).2 :=
  ⟨rfl,
   (C9_inference_deterministic cfgA fwQ expfU sQ0 sQ2 sQ0.detector 1 pHalf rxP
     rfl).2⟩

/-- Claim C1. In drift-adaptive mode (`mechanism = DRIFT`) the training episode
re-creates the whole classifier grid before any training step, so its outcome
does not depend on the pre-existing grid; in any other mode the trained grid is
built on top of the persisting grid `s.detector`. -/
theorem C1_grid_reset_iff_drift (cfg : Config) (fw : ClassifierFw Θ)
    (expf : ExpMap) (trainFn : TrainFn Θ) (fresh : ℕ → ℕ → Θ)
    (s₁ s₂ : TrainerState Θ) (tx rx : QMat)
    (htul : s₁.train_users_list = s₂.train_users_list) :
    (cfg.mechanism = TRAINING_TYPES.DRIFT →
        (online_training cfg fw expf trainFn fresh s₁ tx rx).detector
          = (online_training cfg fw expf trainFn fresh s₂ tx rx).detector)
    ∧ (cfg.mechanism ≠ TRAINING_TYPES.DRIFT →
        (online_training cfg fw expf trainFn fresh s₁ tx rx).detector
          = onlineTrainingDetector cfg fw expf trainFn s₁.train_users_list
              s₁.detector tx rx) := by
  constructor
  · intro hm
    rw [online_training_detector, online_training_detector, htul]
    simp only [if_pos hm]
  · intro hm
    rw [online_training_detector, if_neg hm]

/-- Concrete instantiation of C1: a drift-mode episode from two different
grids, and a non-drift-mode episode building on the persisting grid. -/
theorem C1_grid_reset_iff_drift_witness :
    (cfgA.mechanism = TRAINING_TYPES.DRIFT
      ∧ (online_training cfgA fwQ expfU trainQ freshQ sQ0 txP rxP).detector
          = (online_training cfgA fwQ expfU trainQ freshQ sQ1 txP rxP).detector)
    ∧ (cfgB.mechanism ≠ TRAINING_TYPES.DRIFT
      ∧ (online_training cfgB fwQ expfU trainQ freshQ sQ0 txP rxP).detector
          = onlineTrainingDetector cfgB fwQ expfU trainQ sQ0.train_users_list
              sQ0.detector txP rxP) :=
  ⟨⟨rfl,
    (C1_grid_reset_iff_drift cfgA fwQ expfU trainQ freshQ sQ0 sQ1 txP rxP rfl).1
      rfl⟩,
   ⟨by decide,
    (C1_grid_reset_iff_drift cfgB fwQ expfU trainQ freshQ sQ0 sQ1 txP rxP rfl).2
      (by decide)⟩⟩

/-- Claim C3 counterexample. At probability exactly 0.5 the source computes
`torch.sign(0.5 - 0.5) = 0`, and demodulating the symbol 0 yields 1/2 — not
bit 1 as the claim's "p ≥ 0.5 yields bit 1" requires. -/
theorem C3_counterexample :
    BPSK_demodulate (prob_to_BPSK_symbol HALF) = 1/2
    ∧ BPSK_demodulate (prob_to_BPSK_symbol HALF) ≠ 1 := by
  constructor
  · norm_num [BPSK_demodulate, prob_to_BPSK_symbol, tsign, HALF]
  · norm_num [BPSK_demodulate, prob_to_BPSK_symbol, tsign, HALF]

/-- Claim C3, amended. The final detection step hard-thresholds at 0.5 with a
strict inequality: `p > 0.5` yields bit 1 and `p < 0.5` yields bit 0 via
`sign(p - 0.5)` followed by demodulation, while at `p = 0.5` exactly the sign
is 0 and the demodulated value is 1/2, not a bit.  Each entry of `forward`'s
detected word is exactly this composition applied to the final probability. -/
theorem C3_hard_threshold (cfg : Config) (fw : ClassifierFw Θ) (expf : ExpMap)
    (s : TrainerState Θ) (rx : QMat) (p : ℚ) :
    (HALF < p → BPSK_demodulate (prob_to_BPSK_symbol p) = 1)
    ∧ (p < HALF → BPSK_demodulate (prob_to_BPSK_symbol p) = 0)
    ∧ (p = HALF → BPSK_demodulate (prob_to_BPSK_symbol p) = 1/2)
    ∧ (∀ r c, ((forward cfg fw expf s rx).2).entry r c
        = BPSK_demodulate (prob_to_BPSK_symbol
            (((forward cfg fw expf s rx).1).probs_vec.entry r c))) := by
  refine ⟨?_, ?_, ?_, fun r c => rfl⟩
  · intro h
    unfold BPSK_demodulate prob_to_BPSK_symbol tsign
    rw [if_pos (by linarith : (0 : ℚ) < p - HALF)]
    norm_num
  · intro h
    unfold BPSK_demodulate prob_to_BPSK_symbol tsign
    rw [if_neg (by linarith : ¬ (0 : ℚ) < p - HALF),
      if_pos (by linarith : p - HALF < 0)]
    norm_num
  · intro h
    subst h
    unfold BPSK_demodulate prob_to_BPSK_symbol tsign
    norm_num

/-- Concrete instantiation of C3 (amended) at 3/4, 1/4 and 1/2. -/
theorem C3_hard_threshold_witness :
    (HALF < 3/4 ∧ BPSK_demodulate (prob_to_BPSK_symbol (3/4)) = 1)
    ∧ ((1/4 : ℚ) < HALF ∧ BPSK_demodulate (prob_to_BPSK_symbol (1/4)) = 0)
    ∧ BPSK_demodulate (prob_to_BPSK_symbol HALF) = 1/2 :=
  ⟨⟨by norm_num [HALF],
    (C3_hard_threshold cfgA fwU expfU sFresh rxP (3/4)).1 (by norm_num [HALF])⟩,
   ⟨by norm_num [HALF],
    (C3_hard_threshold cfgA fwU expfU sFresh rxP (1/4)).2.1 (by norm_num [HALF])⟩,
   (C3_hard_threshold cfgA fwU expfU sFresh rxP HALF).2.2.1 rfl⟩

/-- Claim C4 counterexample. `init_priors` sizes both probability vectors with
`N_ANT` columns, not `N_USER`: on a configuration with 2 antennas and 3 users
the column count is 2, not the number of users. -/
theorem C4_counterexample :
    ((init_priors cfgC sFresh).probs_vec).cols = 2
    ∧ ((init_priors cfgC sFresh).pilots_probs_vec).cols = 2
    ∧ cfgC.n_user = 3
    ∧ (2 : ℕ) ≠ 3 :=
  ⟨rfl, rfl, rfl, by decide⟩

/-- Claim C4, amended. At the start of every inference pass `init_priors`
re-initializes both probability vectors so that every entry equals 0.5; the
unlabeled-detection vector has `block_length - pilot_size` rows and the pilot
vector has `pilot_size` rows, and both have `n_ant` (number of antennas)
columns — which equals the number of users only when the configured antenna
count equals the user count. -/
theorem C4_init_priors (cfg : Config) (s : TrainerState Θ) :
    (∀ r c, ((init_priors cfg s).probs_vec).entry r c = HALF
      ∧ ((init_priors cfg s).pilots_probs_vec).entry r c = HALF)
    ∧ ((init_priors cfg s).probs_vec).rows = cfg.block_length - cfg.pilot_size
    ∧ ((init_priors cfg s).probs_vec).cols = cfg.n_ant
    ∧ ((init_priors cfg s).pilots_probs_vec).rows = cfg.pilot_size
    ∧ ((init_priors cfg s).pilots_probs_vec).cols = cfg.n_ant :=
  ⟨fun _ _ => ⟨rfl, rfl⟩, rfl, rfl, rfl, rfl⟩

theorem pilotLoopResult_eq (cfg : Config) (fw : ClassifierFw Θ) (expf : ExpMap)
    (stat : DriftStat) (s : TrainerState Θ) (rx tx : QMat) :
    pilotLoopResult cfg fw expf stat s rx tx
      = (List.range ITERATIONS).foldl
          (pilotIter cfg fw expf stat s.detector rx tx)
          { probs := ⟨cfg.pilot_size, cfg.n_ant, fun _ _ => HALF⟩
            htMat := fun _ _ => []
            hts0 := fun _ _ => []
            hts1 := fun _ _ => []
            prev0 := s.prev_ht_s0
            prev1 := s.prev_ht_s1 } := rfl

/-- Claim C2, amended. After the final iteration of `forward_pilot`, the
per-user drift statistics `self.ht` are updated from the last iteration's test
results if and only if the last iteration's cell of the LAST user (index
`n_user - 1`) is non-empty; otherwise `self.ht` is left unchanged.  (The source
checks only `ht_mat[n_user - 1][ITERATIONS - 1]`, not every user's cell.) -/
theorem C2_ht_update_last_user (cfg : Config) (fw : ClassifierFw Θ)
    (expf : ExpMap) (stat : DriftStat) (s : TrainerState Θ) (rx tx : QMat) :
    (((pilotLoopResult cfg fw expf stat s rx tx).htMat (cfg.n_user - 1)
        (ITERATIONS - 1)).length ≠ 0 →
      ∀ u, u < cfg.n_user →
        ((forward_pilot cfg fw expf stat s rx tx).1).ht u
          = HtEntry.samples
              ((pilotLoopResult cfg fw expf stat s rx tx).htMat u (ITERATIONS - 1)))
    ∧ (((pilotLoopResult cfg fw expf stat s rx tx).htMat (cfg.n_user - 1)
        (ITERATIONS - 1)).length = 0 →
      ((forward_pilot cfg fw expf stat s rx tx).1).ht = s.ht) := by
  constructor
  · intro hc u hu
    rw [forward_pilot_ht, if_pos hc]
    show (if u < cfg.n_user then
        HtEntry.samples
          ((pilotLoopResult cfg fw expf stat s rx tx).htMat u (ITERATIONS - 1))
      else s.ht u) = _
    rw [if_pos hu]
  · intro hc
    rw [forward_pilot_ht, if_neg (fun h => h hc)]

/-- Concrete instantiation of C2 (amended): one run in which the last user's
last-iteration cell is non-empty (so `ht` is rewritten) and one fresh run in
which it is empty (so `ht` is kept). -/
theorem C2_ht_update_last_user_witness :
    (((pilotLoopResult cfgA fwU expfU statU sHist rxP txP).htMat
        (cfgA.n_user - 1) (ITERATIONS - 1)).length ≠ 0
      ∧ ((forward_pilot cfgA fwU expfU statU sHist rxP txP).1).ht 1
          = HtEntry.samples
              ((pilotLoopResult cfgA fwU expfU statU sHist rxP txP).htMat 1
                (ITERATIONS - 1)))
    ∧ (((pilotLoopResult cfgA fwU expfU statU sFresh rxP txP).htMat
        (cfgA.n_user - 1) (ITERATIONS - 1)).length = 0
      ∧ ((forward_pilot cfgA fwU expfU statU sFresh rxP txP).1).ht = sFresh.ht) := by
  constructor
  · constructor
    · decide
    · exact (C2_ht_update_last_user cfgA fwU expfU statU sHist rxP txP).1
        (by decide) 1 (by decide)
  · constructor
    · decide
    · exact (C2_ht_update_last_user cfgA fwU expfU statU sFresh rxP txP).2
        (by decide)

/-- Claim C2 counterexample. A run in which `self.ht` IS updated although the
last iteration produced an empty result for user 0 (its class-0 history was
empty, so its drift test was skipped): the update condition is NOT "non-empty
for every user" — only the last user's cell is consulted. -/
theorem C2_counterexample :
    ((forward_pilot cfgA fwU expfU statU sHist rxP txP).1).ht 1 ≠ sHist.ht 1
    ∧ (pilotLoopResult cfgA fwU expfU statU sHist rxP txP).htMat 0
        (ITERATIONS - 1) = [] := by
  constructor
  · decide
  · decide

/-- Claim C6. On a completely fresh detector (every history buffer empty), the
first `forward_pilot` call skips every drift test (the local `ht_mat` stays
empty everywhere), leaves the drift statistics `self.ht` unchanged, and
afterwards every in-grid `(user, iteration)` history buffer holds exactly the
current pilot-derived class-conditional samples (unconditional overwrite, no
merging). -/
theorem C6_fresh_warmup (cfg : Config) (fw : ClassifierFw Θ) (expf : ExpMap)
    (stat : DriftStat) (s : TrainerState Θ) (rx tx : QMat)
    (h0 : ∀ u i, s.prev_ht_s0 u i = []) (h1 : ∀ u i, s.prev_ht_s1 u i = []) :
    (∀ u i, (pilotLoopResult cfg fw expf stat s rx tx).htMat u i = [])
    ∧ ((forward_pilot cfg fw expf stat s rx tx).1).ht = s.ht
    ∧ (∀ u i, u < cfg.n_user → i < ITERATIONS →
        ((forward_pilot cfg fw expf stat s rx tx).1).prev_ht_s0 u i
            = currentPilotSamples cfg fw expf s rx tx 0 u i
          ∧ ((forward_pilot cfg fw expf stat s rx tx).1).prev_ht_s1 u i
            = currentPilotSamples cfg fw expf s rx tx 1 u i) := by
  have hht : ∀ u i, (pilotLoopResult cfg fw expf stat s rx tx).htMat u i = [] := by
    intro u i
    rw [pilotLoopResult_eq, foldl_pilotIter_htMat]
    simp [h0]
  refine ⟨hht, ?_, ?_⟩
  · have hc : ¬ (((pilotLoopResult cfg fw expf stat s rx tx).htMat
        (cfg.n_user - 1) (ITERATIONS - 1)).length ≠ 0) := by
      rw [hht]
      simp
    rw [forward_pilot_ht, if_neg hc]
  · intro u i hu hi
    constructor
    · rw [forward_pilot_prev0, pilotLoopResult_eq, foldl_pilotIter_prev0,
        if_pos ⟨hu, hi⟩]
      rfl
    · rw [forward_pilot_prev1, pilotLoopResult_eq, foldl_pilotIter_prev1,
        if_pos ⟨hu, hi⟩]
      rfl

/-- Concrete instantiation of C6 on the fresh state. -/
theorem C6_fresh_warmup_witness :
    (∀ u i, sFresh.prev_ht_s0 u i = ([] : List ℚ))
    ∧ (∀ u i, sFresh.prev_ht_s1 u i = ([] : List ℚ))
    ∧ ((forward_pilot cfgA fwU expfU statU sFresh rxP txP).1).ht = sFresh.ht :=
  ⟨fun _ _ => rfl, fun _ _ => rfl,
   (C6_fresh_warmup cfgA fwU expfU statU sFresh rxP txP (fun _ _ => rfl)
     (fun _ _ => rfl)).2.1⟩

/-- Claim C10. The drift-test guard of `forward_pilot` consults only the class-0
history buffer: when `prev_ht_s0[user][i]` is non-empty but
`prev_ht_s1[user][i]` is empty, the test is still invoked, with the empty
class-1 history passed to it. -/
theorem C10_test_guard_class0 (cfg : Config) (fw : ClassifierFw Θ)
    (expf : ExpMap) (stat : DriftStat) (s : TrainerState Θ) (rx tx : QMat)
    (u i : ℕ) (hu : u < cfg.n_user) (hi : i < ITERATIONS)
    (h0 : s.prev_ht_s0 u i ≠ []) (h1 : s.prev_ht_s1 u i = []) :
    (pilotLoopResult cfg fw expf stat s rx tx).htMat u i
      = [stat (currentPilotSamples cfg fw expf s rx tx 0 u i)
          (currentPilotSamples cfg fw expf s rx tx 1 u i)
          (s.prev_ht_s0 u i) []] := by
  rw [pilotLoopResult_eq, foldl_pilotIter_htMat]
  have hlen : (s.prev_ht_s0 u i).length ≠ 0 := by
    intro h
    exact h0 (List.length_eq_zero.mp h)
  show (if u < cfg.n_user ∧ i < ITERATIONS ∧ (s.prev_ht_s0 u i).length ≠ 0 then
      [stat (currentPilotSamples cfg fw expf s rx tx 0 u i)
        (currentPilotSamples cfg fw expf s rx tx 1 u i)
        (s.prev_ht_s0 u i) (s.prev_ht_s1 u i)]
    else []) = _
  rw [if_pos ⟨hu, hi, hlen⟩, h1]

/-- Concrete instantiation of C10: user 1's class-0 history is non-empty while
its class-1 history is empty, and the statistic is still recorded. -/
theorem C10_test_guard_class0_witness :
    1 < cfgA.n_user ∧ 0 < ITERATIONS ∧ sHist.prev_ht_s0 1 0 ≠ []
    ∧ sHist.prev_ht_s1 1 0 = []
    ∧ (pilotLoopResult cfgA fwU expfU statU sHist rxP txP).htMat 1 0
        = [statU (currentPilotSamples cfgA fwU expfU sHist rxP txP 0 1 0)
            (currentPilotSamples cfgA fwU expfU sHist rxP txP 1 1 0)
            (sHist.prev_ht_s0 1 0) []] :=
  ⟨by decide, by decide, by decide, rfl,
   C10_test_guard_class0 cfgA fwU expfU statU sHist rxP txP 1 0 (by decide)
     (by decide) (by decide) rfl⟩

end DeepSIC
